import Mathlib

/-!
Shallow embedding of `lambda_function.py` (wordcloud Lambda handler).

Python values that can appear in an API-Gateway event or a parsed JSON body
are modelled by `PyVal`; the external collaborators (the `json` module, the
wordcloud/matplotlib rendering stack, the S3 client, `os.remove`) are
modelled as oracles carried in a `World` record.  The local filesystem is
modelled as the list of paths of files that currently exist.  Python string
operations (`str.strip`, `str.split`, `len`, `str.isalpha`) are modelled
over the string's list of characters so that everything evaluates inside
the kernel.
-/

namespace Wordcloud

/-- Model of a Python/JSON value as delivered in a Lambda event or produced
by `json.loads`. -/
inductive PyVal where
  | str (s : String)
  | int (n : Int)
  | bool (b : Bool)
  | null
  | list (xs : List PyVal)
  | dict (fields : List (String × PyVal))

/-- The Python exception classes that the handler's `except` clauses
distinguish: `ValueError` (caught by the dedicated clause at line 257),
`AttributeError` (raised by `.get`/`.strip` on ill-typed values) and any
other `Exception` (caught by the generic clause at line 262). -/
inductive PyExn where
  | valueError (msg : String)
  | attributeError (msg : String)
  | generic (msg : String)

/-- Possible behaviours of the rendering stage (`WordCloud(...).generate`,
`tempfile.NamedTemporaryFile`, the `plt` calls and `plt.savefig` in
`generate_wordcloud`, lines 83-108):
either an exception is raised before the temporary file is created
(e.g. `WordCloud.generate` throws), or an exception is raised after the
temporary file already exists on disk (e.g. `plt.savefig` throws), or the
whole stage succeeds and returns the temporary file's path. -/
inductive RenderOutcome where
  | failBeforeFile (e : PyExn)
  | failAfterFile (path : String) (e : PyExn)
  | success (path : String)

/-- Possible behaviours of `s3.upload_file` (line 142): a
`botocore.exceptions.ClientError` carrying a service error code, any other
exception, or success. -/
inductive UploadOutcome where
  | clientErr (code : String)
  | otherErr (e : PyExn)
  | success

/-- The ambient world of one invocation: the module-level configuration
(`bucket_name = os.environ.get('BUCKET_NAME')`, line 22), the behaviour of
`json.loads` (`none` models `json.JSONDecodeError`), the behaviour of the
rendering and upload stages, `s3.meta.region_name` (line 145, `none`
models `None`), and whether `os.remove` raises during cleanup. -/
structure World where
  bucketName : Option String
  jsonLoads : String → Option PyVal
  render : RenderOutcome
  upload : UploadOutcome
  regionName : Option String
  removeFails : Bool

/-- An API-Gateway event: a Python dict from field names to values. -/
structure Event where
  fields : List (String × PyVal)

/-- The Lambda context object; only `aws_request_id` is read. -/
structure Ctx where
  aws_request_id : String

/-- The response envelope built by `create_response`: status code, the body
dict (before `json.dumps`) and the header dict. -/
structure Response where
  statusCode : Nat
  body : List (String × PyVal)
  headers : List (String × String)

/-- Python `str.strip()`: drop leading and trailing whitespace characters. -/
def pyStrip (s : String) : String :=
  String.mk (((s.data.dropWhile Char.isWhitespace).reverse.dropWhile
    Char.isWhitespace).reverse)

/-- Python `len` on a string: the number of characters. -/
def pyLen (s : String) : Nat := s.data.length

/-- Python `any(c.isalpha() for c in text)`. -/
def pyHasAlpha (s : String) : Bool := s.data.any Char.isAlpha

/-- Split a character list at every character satisfying `p`, keeping the
(possibly empty) segments between separators. -/
def splitAtWs (p : Char → Bool) : List Char → List (List Char)
  | [] => [[]]
  | c :: cs =>
      let r := splitAtWs p cs
      if p c then [] :: r
      else
        match r with
        | [] => [[c]]
        | t :: ts => (c :: t) :: ts

/-- Python `str.split()` with no argument: split on whitespace runs and
discard empty tokens; `len(text.split())` is the handler's word count. -/
def pySplitCount (s : String) : Nat :=
  ((splitAtWs Char.isWhitespace s.data).filter (fun t => !t.isEmpty)).length

/-- Python truthiness test `not bucket_name` used by `validate_environment`
(line 38): true for `None` and for the empty string. -/
def bucketFalsy : Option String → Bool
  | none => true
  | some s => s == ""

/-- The `f"{bucket_name}"` rendering used when interpolating the bucket
name into the S3 URL (line 146). -/
def bucketStr (w : World) : String :=
  match w.bucketName with
  | none => "None"
  | some s => s

/-- Configuration constant `MAX_TEXT_LENGTH = 50000` (line 25). -/
def MAX_TEXT_LENGTH : Nat := 50000

/-- Configuration constant `MIN_TEXT_LENGTH = 10` (line 26). -/
def MIN_TEXT_LENGTH : Nat := 10

/-- `validate_environment` (lines 36-39): raises
`ValueError("BUCKET_NAME environment variable is required")` when
`bucket_name` is falsy. -/
def validate_environment (bn : Option String) : Except PyExn Unit :=
  if bucketFalsy bn then
    Except.error (PyExn.valueError "BUCKET_NAME environment variable is required")
  else Except.ok ()

/-- Lines 49-67 of `validate_input`, given the string value of the `text`
field before `.strip()`.  The two f-string messages are rendered with the
constants `MIN_TEXT_LENGTH = 10` and `MAX_TEXT_LENGTH = 50000`. -/
def validate_input_text (raw : String) : Bool × String × String :=
  let text := pyStrip raw
  if text = "" then
    (false, "Text input is required and cannot be empty", "")
  else if pyLen text < MIN_TEXT_LENGTH then
    (false, "Text must be at least 10 characters long", "")
  else if pyLen text > MAX_TEXT_LENGTH then
    (false, "Text cannot exceed 50000 characters", "")
  else if pyHasAlpha text = false then
    (false, "Text must contain at least some alphabetic characters", "")
  else
    (true, "", text)

/-- `validate_input` (lines 42-67).  `body.get('text', '')` raises
`AttributeError` when `body` is not a dict; `.strip()` raises
`AttributeError` when the `text` value is not a string. -/
def validate_input (body : PyVal) : Except PyExn (Bool × String × String) :=
  match body with
  | PyVal.dict fields =>
      match (fields.lookup "text").getD (PyVal.str "") with
      | PyVal.str raw => Except.ok (validate_input_text raw)
      | _ => Except.error (PyExn.attributeError "object has no attribute strip")
  | _ => Except.error (PyExn.attributeError "object has no attribute get")

/-- `generate_wordcloud` (lines 70-113) as it acts on the filesystem: on
`failBeforeFile` no file is created; on `failAfterFile` the temporary file
already exists when the exception propagates (the `except` clause only
closes the matplotlib figures and re-raises, lines 110-113); on success the
file exists and its path is returned. -/
def generate_wordcloud (w : World) (fs : List String) :
    Except PyExn String × List String :=
  match w.render with
  | RenderOutcome.failBeforeFile e => (Except.error e, fs)
  | RenderOutcome.failAfterFile p e => (Except.error e, fs ++ [p])
  | RenderOutcome.success p => (Except.ok p, fs ++ [p])

/-- `region = s3.meta.region_name or 'us-east-1'` (line 145). -/
def regionOf (w : World) : String :=
  match w.regionName with
  | none => "us-east-1"
  | some r => if r = "" then "us-east-1" else r

/-- `upload_to_s3` (lines 116-157): builds the key
`wordclouds/wordcloud_<request_id>.png`; a `ClientError` is re-raised as a
plain `Exception` carrying the service error code; any other exception is
re-raised unchanged; on success the public URL is returned. -/
def upload_to_s3 (w : World) (request_id : String) : Except PyExn String :=
  let s3_key := "wordclouds/wordcloud_" ++ request_id ++ ".png"
  match w.upload with
  | UploadOutcome.clientErr code =>
      Except.error (PyExn.generic ("Failed to upload image to S3: " ++ code))
  | UploadOutcome.otherErr e => Except.error e
  | UploadOutcome.success =>
      Except.ok ("https://" ++ bucketStr w ++ ".s3." ++ regionOf w ++
        ".amazonaws.com/" ++ s3_key)

/-- `cleanup_temp_file` (lines 160-168): removes the file if it exists;
an exception from `os.remove` is caught and only logged, so the caller
never sees it (modelled by returning the filesystem unchanged). -/
def cleanup_temp_file (w : World) (file_path : String) (fs : List String) :
    List String :=
  if w.removeFails then fs else fs.erase file_path

/-- `create_response` (lines 171-188): `Content-Type: application/json`
plus, when `include_cors` (always left at its default `True` by the
handler), the three permissive CORS headers. -/
def create_response (status_code : Nat) (body : List (String × PyVal))
    (include_cors : Bool) : Response :=
  let headers :=
    if include_cors then
      [("Content-Type", "application/json"),
       ("Access-Control-Allow-Origin", "*"),
       ("Access-Control-Allow-Headers", "Content-Type"),
       ("Access-Control-Allow-Methods", "POST, OPTIONS")]
    else [("Content-Type", "application/json")]
  ⟨status_code, body, headers⟩

/-- Lines 220-228: `json.loads` is applied only when `event['body']` is a
string; a `json.JSONDecodeError` is reported as `Except.error ()`; a
non-string body is used as-is. -/
def parse_body (loads : String → Option PyVal) (bv : PyVal) :
    Except Unit PyVal :=
  match bv with
  | PyVal.str s =>
      match loads s with
      | some v => Except.ok v
      | none => Except.error ()
  | v => Except.ok v

/-- The Python comparison `event.get('httpMethod') == 'OPTIONS'`
(line 211). -/
def isOptionsVal : Option PyVal → Bool
  | some (PyVal.str s) => s == "OPTIONS"
  | _ => false

/-- Result of the `try` block of `lambda_handler`: the value returned or
the exception raised, the value of the local `image_path` (which is only
assigned when `generate_wordcloud` returns, line 238), the filesystem, and
whether the render and upload stages were invoked. -/
structure TryOut where
  result : Except PyExn Response
  image_path : Option String
  fs : List String
  calledGenerate : Bool
  calledUpload : Bool

/-- The `try` block of `lambda_handler` (lines 204-255), translated
statement by statement: environment validation, the CORS pre-flight
short-circuit, the missing-body check, JSON body parsing, input
validation, wordcloud generation and S3 upload. -/
def handlerTry (w : World) (event : Event) (ctx : Ctx) (fs : List String) :
    TryOut :=
  match validate_environment w.bucketName with
  | Except.error e => ⟨Except.error e, none, fs, false, false⟩
  | Except.ok _ =>
    if isOptionsVal (event.fields.lookup "httpMethod") then
      ⟨Except.ok (create_response 200 [("message", PyVal.str "CORS preflight")] true),
        none, fs, false, false⟩
    else
      match event.fields.lookup "body" with
      | none =>
          ⟨Except.ok (create_response 400 [("error", PyVal.str "Missing body in request")] true),
            none, fs, false, false⟩
      | some bv =>
        match parse_body w.jsonLoads bv with
        | Except.error _ =>
            ⟨Except.ok (create_response 400 [("error", PyVal.str "Invalid JSON format")] true),
              none, fs, false, false⟩
        | Except.ok body =>
          match validate_input body with
          | Except.error e => ⟨Except.error e, none, fs, false, false⟩
          | Except.ok (is_valid, error_msg, text) =>
            match is_valid with
            | false =>
                ⟨Except.ok (create_response 400 [("error", PyVal.str error_msg)] true),
                  none, fs, false, false⟩
            | true =>
              match generate_wordcloud w fs with
              | (Except.error e, fs1) =>
                  ⟨Except.error e, none, fs1, true, false⟩
              | (Except.ok p, fs1) =>
                match upload_to_s3 w ctx.aws_request_id with
                | Except.error e => ⟨Except.error e, some p, fs1, true, true⟩
                | Except.ok url =>
                    ⟨Except.ok (create_response 200
                        [("image_url", PyVal.str url),
                         ("request_id", PyVal.str ctx.aws_request_id),
                         ("word_count", PyVal.int (pySplitCount text))] true),
                      some p, fs1, true, true⟩

/-- The observable outcome of one invocation: the response returned to the
gateway, the filesystem after the `finally` block, and whether the render
and upload stages were invoked. -/
structure HandlerOut where
  resp : Response
  fs : List String
  calledGenerate : Bool
  calledUpload : Bool

/-- `lambda_handler` (lines 191-278): runs the `try` block, maps a raised
`ValueError` to the 500 configuration-error response (lines 257-260) and
any other exception to the generic 500 internal-server-error response with
the request id (lines 262-273), then runs the `finally` block (lines
275-278), which cleans up the temporary file only when the local
`image_path` was assigned. -/
def lambda_handler (w : World) (event : Event) (ctx : Ctx)
    (fs : List String) : HandlerOut :=
  let t := handlerTry w event ctx fs
  let resp :=
    match t.result with
    | Except.ok r => r
    | Except.error (PyExn.valueError _) =>
        create_response 500 [("error", PyVal.str "Service configuration error")] true
    | Except.error _ =>
        create_response 500
          [("error", PyVal.str "Internal server error"),
           ("request_id", PyVal.str ctx.aws_request_id)] true
  let fs2 :=
    match t.image_path with
    | none => t.fs
    | some p => cleanup_temp_file w p t.fs
  ⟨resp, fs2, t.calledGenerate, t.calledUpload⟩

/-! ### Helper lemmas -/

/-- When the parsed body is a dict whose `text` field (with default `""`)
is the string `raw`, `validate_input` reduces to the string checks of
lines 49-67. -/
theorem validate_input_dict (fields : List (String × PyVal)) (raw : String)
    (h : (fields.lookup "text").getD (PyVal.str "") = PyVal.str raw) :
    validate_input (PyVal.dict fields) = Except.ok (validate_input_text raw) := by
  have hred : validate_input (PyVal.dict fields) =
      match (fields.lookup "text").getD (PyVal.str "") with
      | PyVal.str raw => Except.ok (validate_input_text raw)
      | _ => Except.error (PyExn.attributeError "object has no attribute strip") := rfl
  rw [hred, h]

/-! ### Claims -/

/-- C2: for every parsed body, the input validator extracts the `text`
field (defaulting to empty), trims surrounding whitespace, and then fails
with the empty-input error if the trimmed text is empty, else with the
too-short error if its length is 9 or fewer, else with the too-long error
if its length is 50001 or more, else with the no-alphabetic-content error
if no character is an alphabetic letter, and otherwise succeeds returning
the trimmed text — the checks applied in exactly that order. -/
theorem c2_validate_input_order (fields : List (String × PyVal)) (raw : String)
    (h : (fields.lookup "text").getD (PyVal.str "") = PyVal.str raw) :
    validate_input (PyVal.dict fields) =
      Except.ok
        (if pyStrip raw = "" then
           (false, "Text input is required and cannot be empty", "")
         else if pyLen (pyStrip raw) ≤ 9 then
           (false, "Text must be at least 10 characters long", "")
         else if 50001 ≤ pyLen (pyStrip raw) then
           (false, "Text cannot exceed 50000 characters", "")
         else if pyHasAlpha (pyStrip raw) = false then
           (false, "Text must contain at least some alphabetic characters", "")
         else (true, "", pyStrip raw)) := by
  rw [validate_input_dict fields raw h]
  by_cases h0 : pyStrip raw = ""
  · simp [validate_input_text, h0]
  · by_cases h1 : pyLen (pyStrip raw) < MIN_TEXT_LENGTH
    · have h1' : pyLen (pyStrip raw) ≤ 9 := by
        simp only [MIN_TEXT_LENGTH] at h1; omega
      simp [validate_input_text, h0, h1, h1']
    · have h1' : ¬ pyLen (pyStrip raw) ≤ 9 := by
        simp only [MIN_TEXT_LENGTH] at h1; omega
      by_cases h2 : pyLen (pyStrip raw) > MAX_TEXT_LENGTH
      · have h2' : 50001 ≤ pyLen (pyStrip raw) := by
          simp only [MAX_TEXT_LENGTH] at h2; omega
        simp [validate_input_text, h0, h1, h1', h2, h2']
      · have h2' : ¬ 50001 ≤ pyLen (pyStrip raw) := by
          simp only [MAX_TEXT_LENGTH] at h2; omega
        by_cases h3 : pyHasAlpha (pyStrip raw) = false
        · simp [validate_input_text, h0, h1, h1', h2, h2', h3]
        · simp [validate_input_text, h0, h1, h1', h2, h2', h3]

/-- Witness for C2 at a concrete body whose `text` is
`" hi there friend "`. -/
theorem c2_validate_input_order_witness :
    validate_input (PyVal.dict [("text", PyVal.str " hi there friend ")]) =
      Except.ok (true, "", "hi there friend") := by
  have h := c2_validate_input_order [("text", PyVal.str " hi there friend ")]
    " hi there friend " rfl
  rw [h]
  rfl

/-- C8 counterexample: the claim ranges over raw inputs "with length in
[10, 50000]", but the code applies the minimum-length check to the
*trimmed* text: `"aaaaaaaaa "` has raw length 10 and contains alphabetic
characters, yet validation fails with the too-short error. -/
theorem c8_valid_text_counterexample :
    pyLen "aaaaaaaaa " = 10 ∧ pyHasAlpha "aaaaaaaaa " = true ∧
    validate_input (PyVal.dict [("text", PyVal.str "aaaaaaaaa ")]) =
      Except.ok (false, "Text must be at least 10 characters long", "") :=
  ⟨rfl, rfl, rfl⟩

/-- C8 (amended): for all text inputs whose *trimmed* length is in
[10, 50000] and whose trimmed text contains at least one alphabetic
character, validation succeeds and returns the trimmed text unchanged
apart from surrounding-whitespace removal. -/
theorem c8_valid_text_amended (fields : List (String × PyVal)) (raw : String)
    (h : (fields.lookup "text").getD (PyVal.str "") = PyVal.str raw)
    (hmin : 10 ≤ pyLen (pyStrip raw)) (hmax : pyLen (pyStrip raw) ≤ 50000)
    (halpha : pyHasAlpha (pyStrip raw) = true) :
    validate_input (PyVal.dict fields) = Except.ok (true, "", pyStrip raw) := by
  rw [validate_input_dict fields raw h]
  unfold validate_input_text
  have h0 : ¬ pyStrip raw = "" := fun h0 => absurd (h0 ▸ hmin) (by decide)
  rw [if_neg h0,
    if_neg (by simp only [MIN_TEXT_LENGTH, Nat.not_lt]; omega),
    if_neg (by simp only [MAX_TEXT_LENGTH, gt_iff_lt, Nat.not_lt]; omega),
    if_neg (by simp [halpha])]

/-- Witness for C8 (amended) at the concrete input
`"  hello wordcloud  "`. -/
theorem c8_valid_text_amended_witness :
    validate_input (PyVal.dict [("text", PyVal.str "  hello wordcloud  ")]) =
      Except.ok (true, "", "hello wordcloud") := by
  have h := c8_valid_text_amended [("text", PyVal.str "  hello wordcloud  ")]
    "  hello wordcloud  " rfl (by decide) (by decide) (by decide)
  rw [h]
  rfl

/-- C6: whenever the `BUCKET_NAME` configuration is missing or empty, the
handler returns the 500 response whose body is exactly the generic
configuration-error message (so it never contains the raw internal
exception text `"BUCKET_NAME environment variable is required"`), for
every event, and the filesystem is untouched. -/
theorem c6_missing_bucket_config_error (w : World) (event : Event) (ctx : Ctx)
    (fs : List String) (h : bucketFalsy w.bucketName = true) :
    lambda_handler w event ctx fs =
      ⟨create_response 500 [("error", PyVal.str "Service configuration error")] true,
       fs, false, false⟩ := by
  unfold lambda_handler handlerTry validate_environment
  rw [h]
  rfl

/-- Witness for C6: missing bucket with an OPTIONS event still yields the
configuration-error 500. -/
theorem c6_missing_bucket_config_error_witness :
    lambda_handler
      ⟨none, fun _ => none, RenderOutcome.success "/tmp/a.png",
        UploadOutcome.success, none, false⟩
      ⟨[("httpMethod", PyVal.str "OPTIONS")]⟩ ⟨"r6"⟩ [] =
      ⟨create_response 500 [("error", PyVal.str "Service configuration error")] true,
       [], false, false⟩ :=
  c6_missing_bucket_config_error _ _ _ _ rfl

/-- Every response the `try` block can return is built by
`create_response` with `include_cors` left at its default, hence carries
the four standard headers. -/
theorem handlerTry_ok_headers (w : World) (event : Event) (ctx : Ctx)
    (fs : List String) (r : Response)
    (h : (handlerTry w event ctx fs).result = Except.ok r) :
    r.headers =
      [("Content-Type", "application/json"),
       ("Access-Control-Allow-Origin", "*"),
       ("Access-Control-Allow-Headers", "Content-Type"),
       ("Access-Control-Allow-Methods", "POST, OPTIONS")] := by
  unfold handlerTry at h
  repeat' split at h
  all_goals (first
    | exact Except.noConfusion h
    | (injection h with h; subst h; rfl))

/-- Claim C10: every response produced by the handler — including the
OPTIONS pre-flight response and every error response — carries the header
`Content-Type: application/json` together with the three permissive
cross-origin headers. -/
theorem c10_headers_always_cors (w : World) (event : Event) (ctx : Ctx)
    (fs : List String) :
    (lambda_handler w event ctx fs).resp.headers =
      [("Content-Type", "application/json"),
       ("Access-Control-Allow-Origin", "*"),
       ("Access-Control-Allow-Headers", "Content-Type"),
       ("Access-Control-Allow-Methods", "POST, OPTIONS")] := by
  have hmain : (lambda_handler w event ctx fs).resp =
      (match (handlerTry w event ctx fs).result with
        | Except.ok r => r
        | Except.error (PyExn.valueError _) =>
            create_response 500 [("error", PyVal.str "Service configuration error")] true
        | Except.error _ =>
            create_response 500
              [("error", PyVal.str "Internal server error"),
               ("request_id", PyVal.str ctx.aws_request_id)] true) := rfl
  rw [hmain]
  rcases hr : (handlerTry w event ctx fs).result with e | r
  · cases e <;> rfl
  · exact handlerTry_ok_headers w event ctx fs r hr

/-- Claim C4 counterexample: an OPTIONS event does *not* always get a 200.
`validate_environment` runs before the pre-flight check (lines 208 and
211), so when the bucket configuration is missing the handler returns the
500 configuration error instead of 200. -/
theorem c4_preflight_counterexample :
    isOptionsVal ((⟨[("httpMethod", PyVal.str "OPTIONS")]⟩ : Event).fields.lookup
      "httpMethod") = true ∧
    (lambda_handler
      ⟨none, fun _ => none, RenderOutcome.success "/tmp/a.png",
        UploadOutcome.success, none, false⟩
      ⟨[("httpMethod", PyVal.str "OPTIONS")]⟩ ⟨"r4"⟩ []).resp.statusCode = 500 :=
  ⟨rfl, rfl⟩

/-- Claim C4 (amended): provided the bucket configuration is present and
non-empty, every event whose `httpMethod` equals the string OPTIONS gets
the 200 pre-flight response without the render or upload stage being
invoked and with the filesystem untouched. -/
theorem c4_preflight_amended (w : World) (event : Event) (ctx : Ctx)
    (fs : List String)
    (hbucket : bucketFalsy w.bucketName = false)
    (hopt : isOptionsVal (event.fields.lookup "httpMethod") = true) :
    lambda_handler w event ctx fs =
      ⟨create_response 200 [("message", PyVal.str "CORS preflight")] true,
       fs, false, false⟩ := by
  unfold lambda_handler handlerTry validate_environment
  rw [hbucket, hopt]
  rfl

/-- Witness for C4 (amended) at a concrete configured world and OPTIONS
event. -/
theorem c4_preflight_amended_witness :
    lambda_handler
      ⟨some "bkt", fun _ => none, RenderOutcome.success "/tmp/a.png",
        UploadOutcome.success, none, false⟩
      ⟨[("httpMethod", PyVal.str "OPTIONS")]⟩ ⟨"r4"⟩ [] =
      ⟨create_response 200 [("message", PyVal.str "CORS preflight")] true,
       [], false, false⟩ :=
  c4_preflight_amended _ _ _ _ rfl rfl

/-- Claim C5 counterexample: a missing `body` field does *not* return 400
regardless of the other fields: an event with no `body` whose
`httpMethod` is OPTIONS is short-circuited to the 200 pre-flight response
(line 211 runs before the body check at line 215). -/
theorem c5_missing_body_counterexample :
    ((⟨[("httpMethod", PyVal.str "OPTIONS")]⟩ : Event).fields.lookup "body" = none) ∧
    (lambda_handler
      ⟨some "bkt", fun _ => none, RenderOutcome.success "/tmp/a.png",
        UploadOutcome.success, none, false⟩
      ⟨[("httpMethod", PyVal.str "OPTIONS")]⟩ ⟨"r5"⟩ []).resp.statusCode = 200 :=
  ⟨rfl, rfl⟩

/-- Claim C5 (amended): provided the bucket configuration is present and
the event is not an OPTIONS pre-flight, every event with no `body` field
gets status 400 with the missing-body error message, regardless of its
other fields. -/
theorem c5_missing_body_amended (w : World) (event : Event) (ctx : Ctx)
    (fs : List String)
    (hbucket : bucketFalsy w.bucketName = false)
    (hopt : isOptionsVal (event.fields.lookup "httpMethod") = false)
    (hnobody : event.fields.lookup "body" = none) :
    lambda_handler w event ctx fs =
      ⟨create_response 400 [("error", PyVal.str "Missing body in request")] true,
       fs, false, false⟩ := by
  unfold lambda_handler handlerTry validate_environment
  rw [hbucket, hopt, hnobody]
  rfl

/-- Witness for C5 (amended) at a concrete bodyless event. -/
theorem c5_missing_body_amended_witness :
    lambda_handler
      ⟨some "bkt", fun _ => none, RenderOutcome.success "/tmp/a.png",
        UploadOutcome.success, none, false⟩
      ⟨[("httpMethod", PyVal.str "POST")]⟩ ⟨"r5"⟩ [] =
      ⟨create_response 400 [("error", PyVal.str "Missing body in request")] true,
       [], false, false⟩ :=
  c5_missing_body_amended _ _ _ _ rfl rfl rfl

/-- Claim C7 counterexample: an event whose `body` is a non-JSON string
does *not* always get a 400: when the bucket configuration is missing the
handler returns the 500 configuration error before ever parsing the
body. -/
theorem c7_invalid_json_counterexample :
    ((⟨[("body", PyVal.str "not json")]⟩ : Event).fields.lookup "body" =
      some (PyVal.str "not json")) ∧
    (lambda_handler
      ⟨none, fun _ => none, RenderOutcome.success "/tmp/a.png",
        UploadOutcome.success, none, false⟩
      ⟨[("body", PyVal.str "not json")]⟩ ⟨"r7"⟩ []).resp.statusCode = 500 :=
  ⟨rfl, rfl⟩

/-- Claim C7 (amended): provided the bucket configuration is present and
the event is not an OPTIONS pre-flight, (1) a string `body` on which
`json.loads` fails yields status 400 with the invalid-format error, and
(2) an already-structured (non-string) `body` is accepted without a
decoding step: the handler's outcome is unchanged under an arbitrary
replacement of the `json.loads` oracle. -/
theorem c7_invalid_json_amended :
    (∀ (w : World) (event : Event) (ctx : Ctx) (fs : List String) (s : String),
      bucketFalsy w.bucketName = false →
      isOptionsVal (event.fields.lookup "httpMethod") = false →
      event.fields.lookup "body" = some (PyVal.str s) →
      w.jsonLoads s = none →
      lambda_handler w event ctx fs =
        ⟨create_response 400 [("error", PyVal.str "Invalid JSON format")] true,
         fs, false, false⟩) ∧
    (∀ (w : World) (g : String → Option PyVal) (event : Event) (ctx : Ctx)
       (fs : List String) (bv : PyVal),
      event.fields.lookup "body" = some bv →
      (∀ s, bv ≠ PyVal.str s) →
      lambda_handler w event ctx fs =
        lambda_handler { w with jsonLoads := g } event ctx fs) := by
  constructor
  · intro w event ctx fs s hbucket hopt hbody hload
    have hparse : parse_body w.jsonLoads (PyVal.str s) = Except.error () := by
      have hred : parse_body w.jsonLoads (PyVal.str s) =
          (match w.jsonLoads s with
           | some v => Except.ok v
           | none => Except.error ()) := rfl
      rw [hred, hload]
    unfold lambda_handler handlerTry validate_environment
    simp only [hbucket, hopt, hbody, hparse]
    rfl
  · intro w g event ctx fs bv hbody hns
    cases bv with
    | str s => exact absurd rfl (hns s)
    | int n => unfold lambda_handler handlerTry; rw [hbody]; rfl
    | bool bb => unfold lambda_handler handlerTry; rw [hbody]; rfl
    | null => unfold lambda_handler handlerTry; rw [hbody]; rfl
    | list xs => unfold lambda_handler handlerTry; rw [hbody]; rfl
    | dict fl => unfold lambda_handler handlerTry; rw [hbody]; rfl

/-- Witness for C7 (amended): part (1) at a concrete undecodable string
body, part (2) at a concrete dict body and a changed `json.loads`
oracle. -/
theorem c7_invalid_json_amended_witness :
    (lambda_handler
      ⟨some "bkt", fun _ => none, RenderOutcome.success "/tmp/a.png",
        UploadOutcome.success, none, false⟩
      ⟨[("body", PyVal.str "not json")]⟩ ⟨"r7"⟩ [] =
      ⟨create_response 400 [("error", PyVal.str "Invalid JSON format")] true,
       [], false, false⟩) ∧
    (lambda_handler
      ⟨some "bkt", fun _ => none, RenderOutcome.success "/tmp/a.png",
        UploadOutcome.success, none, false⟩
      ⟨[("body", PyVal.dict [("text", PyVal.str "sphinx of black quartz")])]⟩ ⟨"r7"⟩ [] =
      lambda_handler
      ⟨some "bkt", fun _ => some PyVal.null, RenderOutcome.success "/tmp/a.png",
        UploadOutcome.success, none, false⟩
      ⟨[("body", PyVal.dict [("text", PyVal.str "sphinx of black quartz")])]⟩ ⟨"r7"⟩ []) :=
  ⟨c7_invalid_json_amended.1 _ _ _ _ "not json" rfl rfl rfl rfl,
   c7_invalid_json_amended.2 _ (fun _ => some PyVal.null) _ _ _ _ rfl
     (fun _ h => PyVal.noConfusion h)⟩

/-- Claim C9: for every event whose parsed body is either not a key-value
mapping, or whose `text` field is present but not a string, the handler
returns status 500 with the generic internal-server-error body carrying
the request id — not a 400 validation error (the `AttributeError` raised
by `validate_input` falls through to the generic `except` clause at line
262). -/
theorem c9_illtyped_body_internal_error (w : World) (event : Event) (ctx : Ctx)
    (fs : List String) (bv body : PyVal)
    (hbucket : bucketFalsy w.bucketName = false)
    (hopt : isOptionsVal (event.fields.lookup "httpMethod") = false)
    (hbody : event.fields.lookup "body" = some bv)
    (hparse : parse_body w.jsonLoads bv = Except.ok body)
    (hbad : (∀ fl, body ≠ PyVal.dict fl) ∨
            (∃ fl, body = PyVal.dict fl ∧
              ∀ s, (fl.lookup "text").getD (PyVal.str "") ≠ PyVal.str s)) :
    lambda_handler w event ctx fs =
      ⟨create_response 500
         [("error", PyVal.str "Internal server error"),
          ("request_id", PyVal.str ctx.aws_request_id)] true,
       fs, false, false⟩ := by
  have hv : ∃ m, validate_input body = Except.error (PyExn.attributeError m) := by
    rcases hbad with hnd | ⟨fl, rfl, hns⟩
    · cases body with
      | dict fl => exact absurd rfl (hnd fl)
      | str s => exact ⟨_, rfl⟩
      | int n => exact ⟨_, rfl⟩
      | bool bb => exact ⟨_, rfl⟩
      | null => exact ⟨_, rfl⟩
      | list xs => exact ⟨_, rfl⟩
    · have hred : validate_input (PyVal.dict fl) =
          match (fl.lookup "text").getD (PyVal.str "") with
          | PyVal.str raw => Except.ok (validate_input_text raw)
          | _ => Except.error (PyExn.attributeError "object has no attribute strip") := rfl
      cases hx : (fl.lookup "text").getD (PyVal.str "") with
      | str s => exact absurd hx (hns s)
      | int n => exact ⟨_, by rw [hred, hx]⟩
      | bool bb => exact ⟨_, by rw [hred, hx]⟩
      | null => exact ⟨_, by rw [hred, hx]⟩
      | list xs => exact ⟨_, by rw [hred, hx]⟩
      | dict fl2 => exact ⟨_, by rw [hred, hx]⟩
  obtain ⟨m, hm⟩ := hv
  unfold lambda_handler handlerTry validate_environment
  simp only [hbucket, hopt, hbody, hparse, hm]
  rfl

/-- Witness for C9 at a concrete event whose structured body is a JSON
array rather than an object. -/
theorem c9_illtyped_body_internal_error_witness :
    lambda_handler
      ⟨some "bkt", fun _ => none, RenderOutcome.success "/tmp/a.png",
        UploadOutcome.success, none, false⟩
      ⟨[("body", PyVal.list [])]⟩ ⟨"r9"⟩ [] =
      ⟨create_response 500
         [("error", PyVal.str "Internal server error"),
          ("request_id", PyVal.str "r9")] true,
       [], false, false⟩ :=
  c9_illtyped_body_internal_error _ _ _ _ (PyVal.list []) (PyVal.list [])
    rfl rfl rfl rfl (Or.inl (fun _ h => PyVal.noConfusion h))

/-- Claim C3: on successful completion of the handler (configured bucket,
non-pre-flight event, body present and parsed, validation succeeded,
render and upload succeeded) the returned response has status 200 and its
body has `word_count` equal to the number of whitespace-delimited tokens
of the validated (trimmed) text, `request_id` equal to the request
identifier, and `image_url` of the exact form
https://bucket.s3.region.amazonaws.com/wordclouds/wordcloud_id.png. -/
theorem c3_success_response_shape (w : World) (event : Event) (ctx : Ctx)
    (fs : List String) (b : String) (bv body : PyVal) (e text p : String)
    (hb : w.bucketName = some b) (hbne : ¬ b = "")
    (hopt : isOptionsVal (event.fields.lookup "httpMethod") = false)
    (hbody : event.fields.lookup "body" = some bv)
    (hparse : parse_body w.jsonLoads bv = Except.ok body)
    (hval : validate_input body = Except.ok (true, e, text))
    (hrender : w.render = RenderOutcome.success p)
    (hupload : w.upload = UploadOutcome.success) :
    (lambda_handler w event ctx fs).resp =
      create_response 200
        [("image_url", PyVal.str ("https://" ++ b ++ ".s3." ++ regionOf w ++
            ".amazonaws.com/" ++ ("wordclouds/wordcloud_" ++ ctx.aws_request_id ++ ".png"))),
         ("request_id", PyVal.str ctx.aws_request_id),
         ("word_count", PyVal.int (pySplitCount text))] true := by
  have hfb : bucketFalsy (some b) = false := by simp [bucketFalsy, hbne]
  unfold lambda_handler handlerTry validate_environment generate_wordcloud upload_to_s3 bucketStr
  simp only [hb, hfb, hopt, hbody, hparse, hval, hrender, hupload]
  rfl

/-- Witness for C3 at a concrete valid request: four words, bucket
`mybucket`, region `us-east-1`, request id `req-42`. -/
theorem c3_success_response_shape_witness :
    (lambda_handler
      ⟨some "mybucket", fun _ => none, RenderOutcome.success "/tmp/w.png",
        UploadOutcome.success, some "us-east-1", false⟩
      ⟨[("body", PyVal.dict [("text", PyVal.str "hello world wide web")])]⟩
      ⟨"req-42"⟩ []).resp =
      create_response 200
        [("image_url",
          PyVal.str "https://mybucket.s3.us-east-1.amazonaws.com/wordclouds/wordcloud_req-42.png"),
         ("request_id", PyVal.str "req-42"),
         ("word_count", PyVal.int 4)] true := by
  have h := c3_success_response_shape
    ⟨some "mybucket", fun _ => none, RenderOutcome.success "/tmp/w.png",
      UploadOutcome.success, some "us-east-1", false⟩
    ⟨[("body", PyVal.dict [("text", PyVal.str "hello world wide web")])]⟩
    ⟨"req-42"⟩ [] "mybucket"
    (PyVal.dict [("text", PyVal.str "hello world wide web")])
    (PyVal.dict [("text", PyVal.str "hello world wide web")])
    "" "hello world wide web" "/tmp/w.png"
    rfl (by decide) rfl rfl rfl rfl rfl rfl
  exact h.trans rfl

/-- Claim C1 (code-bug demonstration).  First conjunct: when the render
stage fails *after* the temporary file has been created (e.g.
`plt.savefig` raises), the exception propagates out of
`generate_wordcloud` before the assignment at line 238, so the handler's
`image_path` is still `None`, the `finally` block skips cleanup, and the
temporary file is still on disk after the handler returns — contradicting
the claim that the transient artifact never survives a render failure.
Second conjunct: on an upload failure the file *is* cleaned up.  Third
conjunct: a failure inside `cleanup_temp_file` is swallowed — the
response is still the 200 success response (no error propagates to the
caller), with the file left behind. -/
theorem c1_cleanup_code_bug :
    ((lambda_handler
        ⟨some "bkt", fun _ => none,
          RenderOutcome.failAfterFile "/tmp/tmp123.png" (PyExn.generic "savefig failed"),
          UploadOutcome.success, none, false⟩
        ⟨[("body", PyVal.dict [("text", PyVal.str "hello world wide web")])]⟩
        ⟨"rid-1"⟩ []).fs = ["/tmp/tmp123.png"] ∧
     (lambda_handler
        ⟨some "bkt", fun _ => none,
          RenderOutcome.failAfterFile "/tmp/tmp123.png" (PyExn.generic "savefig failed"),
          UploadOutcome.success, none, false⟩
        ⟨[("body", PyVal.dict [("text", PyVal.str "hello world wide web")])]⟩
        ⟨"rid-1"⟩ []).resp.statusCode = 500) ∧
    ((lambda_handler
        ⟨some "bkt", fun _ => none, RenderOutcome.success "/tmp/tmp9.png",
          UploadOutcome.clientErr "AccessDenied", none, false⟩
        ⟨[("body", PyVal.dict [("text", PyVal.str "hello world wide web")])]⟩
        ⟨"rid-1"⟩ []).fs = [] ∧
     (lambda_handler
        ⟨some "bkt", fun _ => none, RenderOutcome.success "/tmp/tmp9.png",
          UploadOutcome.clientErr "AccessDenied", none, false⟩
        ⟨[("body", PyVal.dict [("text", PyVal.str "hello world wide web")])]⟩
        ⟨"rid-1"⟩ []).resp.statusCode = 500) ∧
    ((lambda_handler
        ⟨some "bkt", fun _ => none, RenderOutcome.success "/tmp/tmp9.png",
          UploadOutcome.success, none, true⟩
        ⟨[("body", PyVal.dict [("text", PyVal.str "hello world wide web")])]⟩
        ⟨"rid-1"⟩ []).fs = ["/tmp/tmp9.png"] ∧
     (lambda_handler
        ⟨some "bkt", fun _ => none, RenderOutcome.success "/tmp/tmp9.png",
          UploadOutcome.success, none, true⟩
        ⟨[("body", PyVal.dict [("text", PyVal.str "hello world wide web")])]⟩
        ⟨"rid-1"⟩ []).resp.statusCode = 200) :=
  ⟨⟨rfl, rfl⟩, ⟨rfl, rfl⟩, ⟨rfl, rfl⟩⟩

end Wordcloud
